import Mathlib

/-!
Verification of the payment-instrument validation layer (module `authorize.data`
of the authorizesauce repository) against its natural-language specification.

The Python source is a Python 2 module: `map(int, s)` returns a list, list
slices such as `num[::-2]` are lists, and `re` patterns are over byte strings
so that `\d` means the ASCII digits.  The embedding below translates the
module into Lean definitions:

* digit strings are `String` / `List Char`;
* `datetime` values are a seven-field record compared lexicographically,
  exactly as Python compares `datetime` objects;
* the single `AuthorizeInvalidError` plus the possibility of an uncaught
  exception (a `ValueError` escaping from `int()`, `calendar.monthrange`
  or the `datetime` constructor) are modelled by the sum type `PyErr`;
* construction (`__init__` followed by `validate`) is a function returning
  `Except PyErr Unit`, with the current clock passed explicitly.
-/

/-- Numeric value of an ASCII digit character (Python `int(c)` on a digit). -/
def digitVal (c : Char) : Nat := c.toNat - 48

/-- Python `str.strip()`: remove leading and trailing whitespace. -/
def pyStrip (s : String) : String :=
  String.mk (((s.data.dropWhile Char.isWhitespace).reverse.dropWhile
    Char.isWhitespace).reverse)

/-- Python falsiness test used by the presence checks:
`x is None or not x.strip()`. -/
def isBlank : Option String → Bool
  | none => true
  | some s => (pyStrip s).data.isEmpty

/-- `re.sub(r'\D', '', s)`: keep only the ASCII digits. -/
def stripNonDigits (s : String) : String :=
  String.mk (s.data.filter Char.isDigit)

/-- `re.sub(r'[^0-9A-Za-z]', '', s)`: keep only ASCII letters and digits. -/
def normalizeRouting (s : String) : String :=
  String.mk (s.data.filter Char.isAlphanum)

/-- Python 2 `map(int, s)` over a string: the list of digit values, or a
`ValueError` (modelled by `none`) when some character is not a digit. -/
def digitsOf? (s : String) : Option (List Nat) :=
  if s.data.all Char.isDigit then some (s.data.map digitVal) else none

/-- Python `x in l` for an optional string against a tuple of strings
(`None in l` is `False`). -/
def optMem (x : Option String) (l : List String) : Bool :=
  match x with
  | some s => l.contains s
  | none => false

/-! ## The Luhn check (`CreditCard.validate`, lines 56-61)

`num[::-2]` is the list of digits at even positions counted from the right
(rightmost digit first) and `num[-2::-2]` the digits at odd positions from
the right.  Both are every second element of the reversed list, the second
starting one element in. -/

/-- Every second element of a list, starting with the first. -/
def everyOther : List Nat → List Nat
  | [] => []
  | [d] => [d]
  | d :: _ :: rest => d :: everyOther rest

/-- `sum(divmod(d * 2, 10))`, the reduction applied to the doubled digits. -/
def divmodDouble (d : Nat) : Nat := d * 2 / 10 + d * 2 % 10

/-- `sum(num[::-2] + map(lambda d: sum(divmod(d * 2, 10)), num[-2::-2]))`. -/
def luhnTotal (ds : List Nat) : Nat :=
  (everyOther ds.reverse).sum +
    ((everyOther (ds.reverse.drop 1)).map divmodDouble).sum

/-! ## The issuer patterns (`CARD_TYPES`, lines 12-18)

Each regex of the `CARD_TYPES` dict, applied with `re.match` (anchored at the
start only).  The `discover` pattern `6011\d{12}` carries no `$`, unlike the
other four, so it accepts any string that starts with `6011` followed by at
least twelve digits.  `card_number` is digits-only when these run, so the
`$`-before-trailing-newline subtlety of `re` cannot arise here. -/

/-- Second character (or the character at an offset) falls in a regex
character range such as `[1-5]`. -/
def charIn (lo hi : Char) : Option Char → Bool
  | some c => lo ≤ c && c ≤ hi
  | none => false

/-- `re.match` of `4\d{12}(\d{3})?$`. -/
def visaMatch (s : List Char) : Bool :=
  s.take 1 = ['4'] && (s.drop 1).all Char.isDigit &&
    (s.length = 13 || s.length = 16)

/-- `re.match` of `37\d{13}$`. -/
def amexMatch (s : List Char) : Bool :=
  s.take 2 = ['3', '7'] && (s.drop 2).all Char.isDigit && s.length = 15

/-- `re.match` of `5[1-5]\d{14}$`. -/
def mcMatch (s : List Char) : Bool :=
  s.take 1 = ['5'] && charIn '1' '5' (s.drop 1).head? &&
    (s.drop 2).all Char.isDigit && s.length = 16

/-- `re.match` of `6011\d{12}` (no end anchor in the source). -/
def discoverMatch (s : List Char) : Bool :=
  s.take 4 = ['6', '0', '1', '1'] && ((s.drop 4).take 12).all Char.isDigit &&
    decide (16 ≤ s.length)

/-- `re.match` of `(30[0-5]\d{11}|(36|38)\d{12})$`. -/
def dinersMatch (s : List Char) : Bool :=
  (s.take 2 = ['3', '0'] && charIn '0' '5' (s.drop 2).head? &&
    (s.drop 3).all Char.isDigit && s.length = 14) ||
  ((s.take 2 = ['3', '6'] || s.take 2 = ['3', '8']) &&
    (s.drop 2).all Char.isDigit && s.length = 14)

/-- `CreditCard.card_type`: the issuer whose pattern matches, if any.  The
Python dict is iterated in an unspecified order, but the five patterns are
pairwise disjoint (they pin distinct one- or two-character openings), so a
fixed order realises the same function. -/
def cardType (s : List Char) : Option String :=
  if visaMatch s then some "visa"
  else if amexMatch s then some "amex"
  else if mcMatch s then some "mc"
  else if discoverMatch s then some "discover"
  else if dinersMatch s then some "diners"
  else none

/-- `re.match(r'^[\d+]{3,4}$', cvv)`: three or four characters, each an ASCII
digit or a literal plus sign (the class `[\d+]` contains `+`); `$` also
matches just before one trailing newline. -/
def cvvMatch (s : String) : Bool :=
  let cs := match s.data.getLast? with
    | some c => if c = '\n' then s.data.dropLast else s.data
    | none => s.data
  (cs.length = 3 || cs.length = 4) && cs.all (fun c => c.isDigit || c = '+')

/-! ## Dates (`CreditCard.expiration`, lines 69-76) -/

/-- A Python `datetime` value (year, month, day, hour, minute, second,
microsecond); `datetime.now()` carries microseconds, the computed
expiration instant has microsecond 0. -/
structure DateTime where
  year : Int
  month : Nat
  day : Nat
  hour : Nat
  minute : Nat
  second : Nat
  micro : Nat
deriving DecidableEq, Repr

/-- Python comparison of `datetime` values: lexicographic on the fields. -/
def dtLt (a b : DateTime) : Bool :=
  if a.year ≠ b.year then decide (a.year < b.year)
  else if a.month ≠ b.month then decide (a.month < b.month)
  else if a.day ≠ b.day then decide (a.day < b.day)
  else if a.hour ≠ b.hour then decide (a.hour < b.hour)
  else if a.minute ≠ b.minute then decide (a.minute < b.minute)
  else if a.second ≠ b.second then decide (a.second < b.second)
  else decide (a.micro < b.micro)

/-- `calendar.isleap`. -/
def isleap (y : Int) : Bool := y % 4 == 0 && (y % 100 != 0 || y % 400 == 0)

/-- Day count of `calendar.monthrange(y, m)` for a month in 1..12. -/
def daysInMonth (y : Int) (m : Nat) : Nat :=
  if m = 2 then (if isleap y then 29 else 28)
  else if m = 4 ∨ m = 6 ∨ m = 9 ∨ m = 11 then 30
  else 31

/-- Python `int(s)` on a string: optional surrounding whitespace, an optional
sign, then at least one ASCII digit; anything else raises `ValueError`
(modelled by `none`). -/
def pyInt? (s : String) : Option Int :=
  let t := (pyStrip s).data
  let p : Bool × List Char :=
    match t with
    | '-' :: rest => (true, rest)
    | '+' :: rest => (false, rest)
    | l => (false, l)
  if p.2 ≠ [] ∧ p.2.all Char.isDigit then
    let n : Nat := p.2.foldl (fun a c => a * 10 + digitVal c) 0
    some (if p.1 then -(n : Int) else (n : Int))
  else none

/-- The `expiration` property: `datetime(int(exp_year), int(exp_month),
monthrange(...)[1], 23, 59, 59)`.  `none` models the uncaught exception
raised when `int()` fails, when `monthrange` rejects the month
(`IllegalMonthError`, outside 1..12) or when the `datetime` constructor
rejects the year (outside `MINYEAR = 1` .. `MAXYEAR = 9999`). -/
def expiration? (expYear expMonth : String) : Option DateTime :=
  match pyInt? expYear, pyInt? expMonth with
  | some y, some m =>
    if 1 ≤ m ∧ m ≤ 12 ∧ 1 ≤ y ∧ y ≤ 9999 then
      some ⟨y, m.toNat, daysInMonth y m.toNat, 23, 59, 59, 0⟩
    else none
  | _, _ => none

/-! ## Errors and the credit-card validation chain -/

/-- Outcome of a failing construction: either the single validation error
`AuthorizeInvalidError` with its message, or some other uncaught Python
exception (carrying a short description). -/
inductive PyErr where
  | invalid : String → PyErr
  | exc : String → PyErr
deriving DecidableEq, Repr

/-- Lines 56-61 of `validate`: `map(int, ...)` under `try` (which can never
raise here, the number being digits-only after normalization), then the Luhn
test `sum(...) % 10`. -/
def numberCheck (cardNumber : String) : Except PyErr Unit :=
  match digitsOf? cardNumber with
  | none => .error (.invalid "Credit card number is not valid.")
  | some num =>
    if luhnTotal num % 10 ≠ 0 then
      .error (.invalid "Credit card number is not valid.")
    else .ok ()

/-- Lines 62-63: `if datetime.now() > self.expiration`, where evaluating
`self.expiration` itself may raise an uncaught exception. -/
def expirationCheck (now : DateTime) (expYear expMonth : String) :
    Except PyErr Unit :=
  match expiration? expYear expMonth with
  | none => .error (.exc "ValueError")
  | some exp =>
    if dtLt exp now then .error (.invalid "Credit card is expired.")
    else .ok ()

/-- Lines 64-65: the CVV regex test. -/
def cvvCheck (cvv : String) : Except PyErr Unit :=
  if cvvMatch cvv then .ok ()
  else .error (.invalid "Credit card CVV is invalid format.")

/-- Lines 66-67: `if not self.card_type`. -/
def typeCheck (cardNumber : String) : Except PyErr Unit :=
  match cardType cardNumber.data with
  | some _ => .ok ()
  | none => .error (.invalid "Credit card number is not valid.")

/-- `CreditCard.__init__` followed by `validate`: normalize the number, then
run the four gates in the order of the source, stopping at the first
failure.  `now` is the value of `datetime.now()`. -/
def creditValidate (now : DateTime)
    (card_number exp_year exp_month cvv : String) : Except PyErr Unit :=
  let num := stripNonDigits card_number
  match numberCheck num with
  | .error e => .error e
  | .ok _ =>
    match expirationCheck now exp_year exp_month with
    | .error e => .error e
    | .ok _ =>
      match cvvCheck cvv with
      | .error e => .error e
      | .ok _ => typeCheck num

/-- `safe_number` (both classes): `'*' * (len(s) - 4)` followed by `s[-4:]`.
Natural subtraction agrees with Python here: for a string shorter than four
characters Python produces an empty mask and the whole string, and so does
this definition. -/
def safe_number (s : String) : String :=
  String.mk (List.replicate (s.data.length - 4) '*' ++
    s.data.drop (s.data.length - 4))

/-! ## Bank accounts (`BankAccount`) -/

/-- The `CUSTOMER_TYPES` tuple. -/
def CUSTOMER_TYPES : List String := ["individual", "business"]

/-- The `ACCOUNT_TYPES` tuple. -/
def ACCOUNT_TYPES : List String := ["checking", "savings", "businessChecking"]

/-- The `ROUTING_NUMBER_TYPES` tuple. -/
def ROUTING_NUMBER_TYPES : List String := ["ABA", "IBAN", "SWIFT"]

/-- The `ECHECK_TYPES` tuple. -/
def ECHECK_TYPES : List String := ["ARC", "BOC", "CCD", "PPD", "TEL", "WEB"]

/-- `BankAccount._validate_aba` (lines 176-193): `map(int, ...)` under `try`,
the length-9 test, then the weighted checksum compared against the ninth
digit.  The `getD` accesses carry a default that is never reached, the
length having been pinned to 9 first. -/
def validateAba (routing : String) : Except PyErr Unit :=
  match digitsOf? routing with
  | none => .error (.invalid "Bank routing number is not valid.")
  | some num =>
    if routing.data.length ≠ 9 then
      .error (.invalid "Bank routing number is not valid.")
    else
      if num.getD 8 0 ≠ (7 * (num.getD 0 0 + num.getD 3 0 + num.getD 6 0) +
          3 * (num.getD 1 0 + num.getD 4 0 + num.getD 7 0) +
          9 * (num.getD 2 0 + num.getD 5 0)) % 10 then
        .error (.invalid "Bank routing number is not valid.")
      else .ok ()

/-- `BankAccount.__init__` followed by `validate`: normalization of the two
numbers, then the guard sequence of lines 137-168 in source order, first
failure winning.  Arguments appear in the order of the `__init__`
signature; a caller passing Python `None` for one of the two number fields
corresponds to the string `"None"` (the result of `str(None)`). -/
def bankValidate (first_name last_name company bank_name : Option String)
    (routing_number account_number : String)
    (customer_type account_type routing_number_type echeck_type :
      Option String) : Except PyErr Unit :=
  let routing := normalizeRouting routing_number
  let account := stripNonDigits account_number
  if isBlank first_name then
    .error (.invalid "First name on account is required.")
  else if isBlank last_name then
    .error (.invalid "Last name on account is required.")
  else if customer_type == some "business" && isBlank company then
    .error (.invalid "Company name is required.")
  else if isBlank bank_name then
    .error (.invalid "Bank name is required.")
  else if (pyStrip routing).data.isEmpty then
    .error (.invalid "Routing number is required.")
  else if (pyStrip account).data.isEmpty then
    .error (.invalid "Account number is required.")
  else if isBlank customer_type then
    .error (.invalid "Customer type is required.")
  else if !optMem customer_type CUSTOMER_TYPES then
    .error (.invalid "Customer type is not valid.")
  else if isBlank account_type then
    .error (.invalid "Bank account type is required.")
  else if !optMem account_type ACCOUNT_TYPES then
    .error (.invalid "Bank account type is not valid.")
  else if isBlank routing_number_type then
    .error (.invalid "Routing number type is required.")
  else if !optMem routing_number_type ROUTING_NUMBER_TYPES then
    .error (.invalid "Routing number is not valid.")
  else if isBlank echeck_type then
    .error (.invalid "eCheck type is required.")
  else if !optMem echeck_type ECHECK_TYPES then
    .error (.invalid "eCheck type is not valid.")
  else if !(decide (5 ≤ account.data.length) &&
      decide (account.data.length ≤ 17)) then
    .error (.invalid "Bank account number is not valid.")
  else validateAba routing

/-! ## Specification-side definitions

These follow the words of the specification and of the claims, to be
compared with the definitions translated from the source. -/

/-- From the spec: double a digit and, when the double is at least 10,
subtract 9 (equivalently, sum the digits of the double). -/
def specDouble (d : Nat) : Nat := if 10 ≤ d * 2 then d * 2 - 9 else d * 2

/-- From the spec: the Luhn total is the sum of the untouched digits at even
positions from the right plus the reduced doubles of the digits at odd
positions from the right. -/
def specLuhnTotal (ds : List Nat) : Nat :=
  (everyOther ds.reverse).sum +
    ((everyOther (ds.reverse.drop 1)).map specDouble).sum

/-- From the claim: visa numbers start with 4 and have length 13 or 16. -/
def visaTab (s : List Char) : Bool :=
  s.take 1 = ['4'] && (s.length = 13 || s.length = 16)

/-- From the claim: amex numbers start with 37 and have length 15. -/
def amexTab (s : List Char) : Bool :=
  s.take 2 = ['3', '7'] && s.length = 15

/-- From the claim: mc numbers start with 51 through 55 and have length 16. -/
def mcTab (s : List Char) : Bool :=
  s.take 1 = ['5'] && charIn '1' '5' (s.drop 1).head? && s.length = 16

/-- From the claim: discover numbers start with 6011 and have length exactly
16. -/
def discoverTabClaim (s : List Char) : Bool :=
  s.take 4 = ['6', '0', '1', '1'] && s.length = 16

/-- Amended discover row: start with 6011 and have length at least 16 (the
source pattern has no end anchor). -/
def discoverTabAmended (s : List Char) : Bool :=
  s.take 4 = ['6', '0', '1', '1'] && decide (16 ≤ s.length)

/-- From the claim: diners numbers start with 300 through 305, 36 or 38 and
have length 14. -/
def dinersTab (s : List Char) : Bool :=
  ((s.take 2 = ['3', '0'] && charIn '0' '5' (s.drop 2).head?) ||
    s.take 2 = ['3', '6'] || s.take 2 = ['3', '8']) && s.length = 14

/-- The issuer classification exactly as the claim words it (discover row
requiring length exactly 16). -/
def claimedCardType (s : List Char) : Option String :=
  if visaTab s then some "visa"
  else if amexTab s then some "amex"
  else if mcTab s then some "mc"
  else if discoverTabClaim s then some "discover"
  else if dinersTab s then some "diners"
  else none

/-- The issuer classification with the amended discover row (length at
least 16). -/
def amendedCardType (s : List Char) : Option String :=
  if visaTab s then some "visa"
  else if amexTab s then some "amex"
  else if mcTab s then some "mc"
  else if discoverTabAmended s then some "discover"
  else if dinersTab s then some "diners"
  else none

/-- From the claim: the normalized routing number consists of exactly nine
digits `d0..d8` with `(7*(d0+d3+d6) + 3*(d1+d4+d7) + 9*(d2+d5)) mod 10 = d8`. -/
def specAbaOk (r : String) : Prop :=
  r.data.all Char.isDigit = true ∧ r.data.length = 9 ∧
    (7 * (digitVal (r.data.getD 0 '0') + digitVal (r.data.getD 3 '0') +
            digitVal (r.data.getD 6 '0')) +
      3 * (digitVal (r.data.getD 1 '0') + digitVal (r.data.getD 4 '0') +
            digitVal (r.data.getD 7 '0')) +
      9 * (digitVal (r.data.getD 2 '0') + digitVal (r.data.getD 5 '0'))) % 10
      = digitVal (r.data.getD 8 '0')

instance (r : String) : Decidable (specAbaOk r) := by
  unfold specAbaOk
  infer_instance

/-- From the claim about masking: same length, the last four characters are
the last four characters of the input, and every earlier character is a
star. -/
def maskedOk (s : String) : Prop :=
  (safe_number s).data.length = s.data.length ∧
  (safe_number s).data.drop (s.data.length - 4) =
    s.data.drop (s.data.length - 4) ∧
  ∀ i, i < s.data.length - 4 → (safe_number s).data.getD i '?' = '*'

/-- A fixed sample value of `datetime.now()` used by concrete evaluations:
noon of 2024-06-15. -/
def sampleNow : DateTime := ⟨2024, 6, 15, 12, 0, 0, 0⟩

/-! ## Helper lemmas -/

theorem all_drop_of_all {p : Char → Bool} :
    ∀ (s : List Char), s.all p = true → ∀ n, (s.drop n).all p = true := by
  intro s hs n
  induction s generalizing n with
  | nil => simp
  | cons c t ih =>
    cases n with
    | zero => exact hs
    | succ m =>
      simp only [List.all_cons, Bool.and_eq_true] at hs
      exact ih hs.2 m

theorem all_take_of_all {p : Char → Bool} :
    ∀ (s : List Char), s.all p = true → ∀ n, (s.take n).all p = true := by
  intro s hs n
  induction s generalizing n with
  | nil => simp
  | cons c t ih =>
    cases n with
    | zero => simp
    | succ m =>
      simp only [List.take_succ_cons, List.all_cons, Bool.and_eq_true] at hs ⊢
      exact ⟨hs.1, ih hs.2 m⟩

theorem filter_all_self {p : Char → Bool} (l : List Char) :
    (l.filter p).all p = true := by
  simp only [List.all_eq_true]
  intro a ha
  exact (List.mem_filter.mp ha).2

theorem stripNonDigits_all (s : String) :
    (stripNonDigits s).data.all Char.isDigit = true :=
  filter_all_self s.data

theorem mem_everyOther : ∀ (l : List Nat), ∀ x ∈ everyOther l, x ∈ l := by
  intro l
  induction l using everyOther.induct with
  | case1 => simp [everyOther]
  | case2 d => simp [everyOther]
  | case3 d e rest ih =>
    intro x hx
    simp only [everyOther, List.mem_cons] at hx ⊢
    rcases hx with h | h
    · exact Or.inl h
    · exact Or.inr (Or.inr (ih x h))

theorem digitVal_le9 {c : Char} (h : c.isDigit = true) : digitVal c ≤ 9 := by
  simp only [Char.isDigit, Bool.and_eq_true, decide_eq_true_eq] at h
  have h2 := UInt32.toNat_le_of_le (by decide) h.2
  have h3 : c.val.toNat ≤ 57 := by simpa using h2
  simp only [digitVal, Char.toNat]
  omega

theorem divmodDouble_eq_specDouble {d : Nat} (h : d ≤ 9) :
    divmodDouble d = specDouble d := by
  interval_cases d <;> rfl

theorem map_divmodDouble_eq (l : List Nat) (h : ∀ x ∈ l, x ≤ 9) :
    l.map divmodDouble = l.map specDouble := by
  induction l with
  | nil => rfl
  | cons a t ih =>
    simp only [List.map_cons, List.cons.injEq]
    constructor
    · exact divmodDouble_eq_specDouble (h a (List.mem_cons_self a t))
    · exact ih fun x hx => h x (List.mem_cons_of_mem a hx)

theorem specLuhnTotal_eq (ds : List Nat) (h : ∀ x ∈ ds, x ≤ 9) :
    specLuhnTotal ds = luhnTotal ds := by
  unfold specLuhnTotal luhnTotal
  have hmap : (everyOther (ds.reverse.drop 1)).map divmodDouble =
      (everyOther (ds.reverse.drop 1)).map specDouble := by
    apply map_divmodDouble_eq
    intro x hx
    have hx1 : x ∈ ds.reverse.drop 1 := mem_everyOther _ x hx
    have hx2 : x ∈ ds.reverse := List.mem_of_mem_drop hx1
    exact h x (List.mem_reverse.mp hx2)
  rw [hmap]

theorem digits_le9 (s : String) (h : s.data.all Char.isDigit = true) :
    ∀ x ∈ s.data.map digitVal, x ≤ 9 := by
  intro x hx
  simp only [List.mem_map] at hx
  obtain ⟨c, hc, rfl⟩ := hx
  exact digitVal_le9 (by simpa using List.all_eq_true.mp h c hc)

/-! ## Claim C1 -/

/-- Claim C1, counterexample.  The claim asserts that the card-number check
rejects the empty normalized string with the number-validity error.  In the
source the Luhn stage accepts the empty string (its total is 0, divisible
by 10, and Python 2 `map(int, '')` is `[]`, raising nothing), so a
construction with an empty number and an ill-formed CVV fails with the CVV
error instead of the number error. -/
theorem c1_counterexample :
    luhnTotal ((stripNonDigits "").data.map digitVal) % 10 = 0 ∧
    creditValidate sampleNow "" "2034" "1" "abc" =
      Except.error (PyErr.invalid "Credit card CVV is invalid format.") :=
  ⟨rfl, rfl⟩

/-- Claim C1 (amended): after normalization to a digit string the card-number
check accepts exactly when the Luhn total, computed with the
double-and-subtract-9 reduction of the spec, is divisible by 10; otherwise
it raises the invalid-input error with message
`Credit card number is not valid.`.  The empty normalized string passes the
Luhn check with total 0; a construction with an empty number still ends in
the same number-validity error, but only at the issuer-classification step,
after the expiration and CVV checks have passed. -/
theorem c1_amended (n : String) :
    (numberCheck (stripNonDigits n) = .ok () ↔
      specLuhnTotal ((stripNonDigits n).data.map digitVal) % 10 = 0) ∧
    (specLuhnTotal ((stripNonDigits n).data.map digitVal) % 10 ≠ 0 →
      numberCheck (stripNonDigits n) =
        .error (.invalid "Credit card number is not valid.")) ∧
    ((stripNonDigits n).data = [] → ∀ now y m c,
      expirationCheck now y m = .ok () → cvvCheck c = .ok () →
      creditValidate now n y m c =
        .error (.invalid "Credit card number is not valid.")) := by
  have hall := stripNonDigits_all n
  have hle := digits_le9 _ hall
  have hspec := specLuhnTotal_eq ((stripNonDigits n).data.map digitVal) hle
  have hnum : digitsOf? (stripNonDigits n) =
      some ((stripNonDigits n).data.map digitVal) := by
    simp [digitsOf?, hall]
  refine ⟨?_, ?_, ?_⟩
  · unfold numberCheck
    rw [hnum, hspec]
    by_cases hc : luhnTotal ((stripNonDigits n).data.map digitVal) % 10 = 0 <;>
      simp [hc]
  · intro hne
    rw [hspec] at hne
    unfold numberCheck
    rw [hnum]
    simp [hne]
  · intro hempty now y m c hexp hcvv
    have hmt : stripNonDigits n = String.mk [] := by
      cases hsd : stripNonDigits n with
      | mk d =>
        rw [hsd] at hempty
        simp only [] at hempty
        rw [show d = [] from hempty]
    have h1 : numberCheck (String.mk []) = .ok () := rfl
    simp only [creditValidate, hmt, h1, hexp, hcvv]
    rfl

/-- Claim C1, witness for the amended theorem: a construction with an empty
number, a future expiration and a well-formed CVV fails with the
number-validity error. -/
theorem c1_witness :
    creditValidate sampleNow "" "2034" "1" "911" =
      Except.error (PyErr.invalid "Credit card number is not valid.") :=
  (c1_amended "").2.2 rfl sampleNow "2034" "1" "911" rfl rfl

/-! ## Claim C2 -/

theorem getD_map_digitVal : ∀ (l : List Char) (i : Nat),
    (l.map digitVal).getD i 0 = digitVal (l.getD i '0') := by
  intro l
  induction l with
  | nil =>
    intro i
    simp only [List.map_nil, List.getD_nil]
    rfl
  | cons c t ih =>
    intro i
    cases i with
    | zero => simp
    | succ j => simpa using ih j



theorem validateAba_eq (r : String) (num : List Nat)
    (h : digitsOf? r = some num) :
    validateAba r =
      (if r.data.length ≠ 9 then
        Except.error (PyErr.invalid "Bank routing number is not valid.")
      else if num.getD 8 0 ≠ (7 * (num.getD 0 0 + num.getD 3 0 + num.getD 6 0) +
          3 * (num.getD 1 0 + num.getD 4 0 + num.getD 7 0) +
          9 * (num.getD 2 0 + num.getD 5 0)) % 10 then
        Except.error (PyErr.invalid "Bank routing number is not valid.")
      else Except.ok ()) := by
  unfold validateAba
  rw [h]

theorem validateAba_ok_iff (r : String) :
    (validateAba r = .ok () ↔ specAbaOk r) ∧
    (¬ specAbaOk r →
      validateAba r = .error (.invalid "Bank routing number is not valid.")) := by
  by_cases hd : r.data.all Char.isDigit = true
  case neg =>
    have hB : r.data.all Char.isDigit = false := by simpa using hd
    have h2 : validateAba r =
        .error (.invalid "Bank routing number is not valid.") := by
      unfold validateAba
      rw [show digitsOf? r = none by simp [digitsOf?, hB]]
    refine ⟨?_, fun _ => h2⟩
    rw [h2]
    exact ⟨(fun h => by cases h), (fun hs => absurd hs.1 hd)⟩
  case pos =>
    have h1 : digitsOf? r = some (r.data.map digitVal) := by
      simp [digitsOf?, hd]
    have heq := validateAba_eq r (r.data.map digitVal) h1
    simp only [getD_map_digitVal] at heq
    by_cases hl : r.data.length = 9
    case neg =>
      have h2 : validateAba r =
          .error (.invalid "Bank routing number is not valid.") := by
        rw [heq, if_pos hl]
      refine ⟨?_, fun _ => h2⟩
      rw [h2]
      exact ⟨(fun h => by cases h), (fun hs => absurd hs.2.1 hl)⟩
    case pos =>
      rw [heq, if_neg (show ¬ r.data.length ≠ 9 from fun h => h hl)]
      by_cases hc : (7 * (digitVal (r.data.getD 0 '0') +
            digitVal (r.data.getD 3 '0') + digitVal (r.data.getD 6 '0')) +
          3 * (digitVal (r.data.getD 1 '0') + digitVal (r.data.getD 4 '0') +
            digitVal (r.data.getD 7 '0')) +
          9 * (digitVal (r.data.getD 2 '0') +
            digitVal (r.data.getD 5 '0'))) % 10 = digitVal (r.data.getD 8 '0')
      case pos =>
        rw [if_neg (show ¬ digitVal (r.data.getD 8 '0') ≠
            (7 * (digitVal (r.data.getD 0 '0') + digitVal (r.data.getD 3 '0') +
              digitVal (r.data.getD 6 '0')) +
            3 * (digitVal (r.data.getD 1 '0') + digitVal (r.data.getD 4 '0') +
              digitVal (r.data.getD 7 '0')) +
            9 * (digitVal (r.data.getD 2 '0') +
              digitVal (r.data.getD 5 '0'))) % 10 from fun h => h hc.symm)]
        exact ⟨⟨(fun _ => ⟨hd, hl, hc⟩), (fun _ => rfl)⟩,
          (fun hs => absurd ⟨hd, hl, hc⟩ hs)⟩
      case neg =>
        rw [if_pos (show digitVal (r.data.getD 8 '0') ≠
            (7 * (digitVal (r.data.getD 0 '0') + digitVal (r.data.getD 3 '0') +
              digitVal (r.data.getD 6 '0')) +
            3 * (digitVal (r.data.getD 1 '0') + digitVal (r.data.getD 4 '0') +
              digitVal (r.data.getD 7 '0')) +
            9 * (digitVal (r.data.getD 2 '0') +
              digitVal (r.data.getD 5 '0'))) % 10 from fun h => hc h.symm)]
        exact ⟨⟨(fun h => by cases h), (fun hs => absurd hs.2.2 hc)⟩,
          (fun _ => rfl)⟩

/-- Claim C2: for any bank-account input whose fields pass rules 1 through 11
(the presence, enumeration and account-number-length gates, stated here as
the exact guard conditions of the source), construction succeeds exactly
when the normalized routing number is nine digits `d0..d8` with
`(7*(d0+d3+d6) + 3*(d1+d4+d7) + 9*(d2+d5)) mod 10 = d8`; otherwise (non-digit
content, wrong length, or checksum mismatch) it fails with the error
`Bank routing number is not valid.`. -/
theorem c2_aba_checksum
    (first_name last_name company bank_name : Option String)
    (routing_number account_number : String)
    (customer_type account_type routing_number_type echeck_type : Option String)
    (h1 : isBlank first_name = false)
    (h2 : isBlank last_name = false)
    (h3 : (customer_type == some "business" && isBlank company) = false)
    (h4 : isBlank bank_name = false)
    (h5 : (pyStrip (normalizeRouting routing_number)).data.isEmpty = false)
    (h6 : (pyStrip (stripNonDigits account_number)).data.isEmpty = false)
    (h7 : isBlank customer_type = false)
    (h8 : optMem customer_type CUSTOMER_TYPES = true)
    (h9 : isBlank account_type = false)
    (h10 : optMem account_type ACCOUNT_TYPES = true)
    (h11 : isBlank routing_number_type = false)
    (h12 : optMem routing_number_type ROUTING_NUMBER_TYPES = true)
    (h13 : isBlank echeck_type = false)
    (h14 : optMem echeck_type ECHECK_TYPES = true)
    (h15 : (decide (5 ≤ (stripNonDigits account_number).data.length) &&
      decide ((stripNonDigits account_number).data.length ≤ 17)) = true) :
    (bankValidate first_name last_name company bank_name routing_number
        account_number customer_type account_type routing_number_type
        echeck_type = .ok () ↔ specAbaOk (normalizeRouting routing_number)) ∧
    (¬ specAbaOk (normalizeRouting routing_number) →
      bankValidate first_name last_name company bank_name routing_number
        account_number customer_type account_type routing_number_type
        echeck_type =
        .error (.invalid "Bank routing number is not valid.")) := by
  have hred : bankValidate first_name last_name company bank_name
      routing_number account_number customer_type account_type
      routing_number_type echeck_type =
      validateAba (normalizeRouting routing_number) := by
    have h15a : 5 ≤ (stripNonDigits account_number).data.length ∧
        (stripNonDigits account_number).data.length ≤ 17 := by simpa using h15
    have h15b : 5 ≤ (stripNonDigits account_number).length ∧
        (stripNonDigits account_number).length ≤ 17 := h15a
    unfold bankValidate
    simp [h1, h2, h3, h4, h5, h6, h7, h8, h9, h10, h11, h12, h13, h14]
    intro hcon
    exfalso
    rcases hcon with h | h
    · exact absurd h (by omega)
    · exact absurd h (by omega)
  rw [hred]
  exact validateAba_ok_iff (normalizeRouting routing_number)

/-- Claim C2, witness: the known-valid ABA routing number 211073473, on an
input passing all earlier rules, is accepted; hence the construction
succeeds. -/
theorem c2_witness :
    bankValidate (some "Enoon") (some "Erehwon") (some "")
      (some "Knab Bank, NLC") "211073473" "12341234123" (some "individual")
      (some "checking") (some "ABA") (some "WEB") = .ok () :=
  (c2_aba_checksum (some "Enoon") (some "Erehwon") (some "")
    (some "Knab Bank, NLC") "211073473" "12341234123" (some "individual")
    (some "checking") (some "ABA") (some "WEB") rfl rfl rfl rfl rfl rfl rfl
    rfl rfl rfl rfl rfl rfl rfl rfl).1.mpr (by decide)

/-! ## Claim C3 -/

theorem visaMatch_eq_tab (s : List Char) (h : s.all Char.isDigit = true) :
    visaMatch s = visaTab s := by
  unfold visaMatch visaTab
  rw [all_drop_of_all s h 1, Bool.eq_iff_iff]
  simp only [Bool.and_eq_true, Bool.or_eq_true, decide_eq_true_eq]
  tauto

theorem amexMatch_eq_tab (s : List Char) (h : s.all Char.isDigit = true) :
    amexMatch s = amexTab s := by
  unfold amexMatch amexTab
  rw [all_drop_of_all s h 2, Bool.eq_iff_iff]
  simp only [Bool.and_eq_true, Bool.or_eq_true, decide_eq_true_eq]
  tauto

theorem mcMatch_eq_tab (s : List Char) (h : s.all Char.isDigit = true) :
    mcMatch s = mcTab s := by
  unfold mcMatch mcTab
  rw [all_drop_of_all s h 2, Bool.eq_iff_iff]
  simp only [Bool.and_eq_true, Bool.or_eq_true, decide_eq_true_eq]
  tauto

theorem discoverMatch_eq_tab (s : List Char) (h : s.all Char.isDigit = true) :
    discoverMatch s = discoverTabAmended s := by
  unfold discoverMatch discoverTabAmended
  rw [all_take_of_all (s.drop 4) (all_drop_of_all s h 4) 12, Bool.eq_iff_iff]
  simp only [Bool.and_eq_true, Bool.or_eq_true, decide_eq_true_eq]
  tauto

theorem dinersMatch_eq_tab (s : List Char) (h : s.all Char.isDigit = true) :
    dinersMatch s = dinersTab s := by
  unfold dinersMatch dinersTab
  rw [all_drop_of_all s h 3, all_drop_of_all s h 2, Bool.eq_iff_iff]
  simp only [Bool.and_eq_true, Bool.or_eq_true, decide_eq_true_eq]
  tauto

theorem cardType_eq_amended (s : List Char) (h : s.all Char.isDigit = true) :
    cardType s = amendedCardType s := by
  unfold cardType amendedCardType
  rw [visaMatch_eq_tab s h, amexMatch_eq_tab s h, mcMatch_eq_tab s h,
    discoverMatch_eq_tab s h, dinersMatch_eq_tab s h]

/-- Claim C3, counterexample.  The 17-digit Luhn-valid number
60110000000000001 matches none of the five patterns as the claim states
them (discover requiring length exactly 16), so per the claim it should be
rejected; the source pattern `6011\d{12}` is unanchored, the number is
classified as discover, and construction succeeds. -/
theorem c3_counterexample :
    claimedCardType (stripNonDigits "60110000000000001").data = none ∧
    cardType (stripNonDigits "60110000000000001").data = some "discover" ∧
    creditValidate sampleNow "60110000000000001" "2034" "1" "911" = .ok () :=
  ⟨rfl, rfl, rfl⟩

/-- Claim C3 (amended): for every constructed card the issuer is determined
by the normalized number through the claimed prefix and length table, with
the discover row amended to: starts with 6011, length at least 16 (the
source pattern is unanchored).  A normalized number matching none of the
five rows, even a Luhn-valid one, is rejected at construction with the
number-validity error once the earlier gates pass. -/
theorem c3_amended (n : String) :
    cardType (stripNonDigits n).data =
      amendedCardType (stripNonDigits n).data ∧
    (∀ now y m c, amendedCardType (stripNonDigits n).data = none →
      numberCheck (stripNonDigits n) = .ok () →
      expirationCheck now y m = .ok () → cvvCheck c = .ok () →
      creditValidate now n y m c =
        .error (.invalid "Credit card number is not valid.")) := by
  have h := stripNonDigits_all n
  refine ⟨cardType_eq_amended _ h, ?_⟩
  intro now y m c hnone hnum hexp hcvv
  have htype : typeCheck (stripNonDigits n) =
      .error (.invalid "Credit card number is not valid.") := by
    unfold typeCheck
    rw [cardType_eq_amended _ h, hnone]
  simp only [creditValidate, hnum, hexp, hcvv, htype]

/-- Claim C3, witness for the amended theorem: the single digit 0 is
Luhn-valid but matches no issuer row, and with valid expiration and CVV the
construction fails with the number-validity error. -/
theorem c3_witness :
    creditValidate sampleNow "0" "2034" "1" "911" =
      Except.error (PyErr.invalid "Credit card number is not valid.") :=
  (c3_amended "0").2 sampleNow "2034" "1" "911" rfl rfl rfl rfl

/-! ## Claim C4 -/

/-- Claim C4, evaluation at the failing input.  The claim (and the spec)
require the CVV to match three or four digits only, but the source pattern
is `^[\d+]{3,4}$`, a character class containing a literal plus: the CVV
`+++` passes the format check and the construction succeeds. -/
theorem c4_code_bug_eval :
    cvvMatch "+++" = true ∧
    creditValidate sampleNow "4111111111111111" "2034" "1" "+++" = .ok () :=
  ⟨rfl, rfl⟩

/-! ## Claim C5 -/

/-- Claim C5, counterexample.  Two defects: an integer-coercible year
outside the range supported by `datetime` (here 10000) makes the
expiration computation raise an uncaught `ValueError` instead of deriving
an instant, even with a valid month and an otherwise valid card; and with a
Luhn-invalid number plus a past date the construction fails with the
number-validity error, not the expired error, although the current moment
is strictly after the expiration instant. -/
theorem c5_counterexample :
    pyInt? "10000" = some 10000 ∧ pyInt? "1" = some 1 ∧
    expiration? "10000" "1" = none ∧
    creditValidate sampleNow "4111111111111111" "10000" "1" "911" =
      .error (.exc "ValueError") ∧
    dtLt ⟨2000, 1, 31, 23, 59, 59, 0⟩ sampleNow = true ∧
    creditValidate sampleNow "4111111111111112" "2000" "1" "911" =
      .error (.invalid "Credit card number is not valid.") :=
  ⟨rfl, rfl, rfl, rfl, rfl, rfl⟩

/-- Claim C5 (amended): for every card whose number passes the Luhn check
and whose `exp_year` and `exp_month` coerce to integers with the month in
1..12 and the year in the range 1..9999 supported by `datetime`, the derived
expiration is 23:59:59 on the last calendar day of that month, and the
construction fails with `Credit card is expired.` exactly when the current
moment is strictly after that instant. -/
theorem c5_amended (now : DateTime) (n y m c : String) (yv mv : Int)
    (hy : pyInt? y = some yv) (hm : pyInt? m = some mv)
    (hm1 : 1 ≤ mv) (hm2 : mv ≤ 12) (hy1 : 1 ≤ yv) (hy2 : yv ≤ 9999)
    (hluhn : numberCheck (stripNonDigits n) = .ok ()) :
    expiration? y m =
      some ⟨yv, mv.toNat, daysInMonth yv mv.toNat, 23, 59, 59, 0⟩ ∧
    (creditValidate now n y m c = .error (.invalid "Credit card is expired.")
      ↔ dtLt ⟨yv, mv.toNat, daysInMonth yv mv.toNat, 23, 59, 59, 0⟩ now
        = true) := by
  have hexp : expiration? y m =
      some ⟨yv, mv.toNat, daysInMonth yv mv.toNat, 23, 59, 59, 0⟩ := by
    unfold expiration?
    simp only [hy, hm]
    rw [if_pos ⟨hm1, hm2, hy1, hy2⟩]
  refine ⟨hexp, ?_⟩
  by_cases hlt : dtLt ⟨yv, mv.toNat, daysInMonth yv mv.toNat, 23, 59, 59, 0⟩
      now = true
  · have hec : expirationCheck now y m =
        .error (.invalid "Credit card is expired.") := by
      unfold expirationCheck
      simp only [hexp]
      rw [if_pos hlt]
    simp only [creditValidate, hluhn, hec]
    exact ⟨fun _ => hlt, fun _ => trivial⟩
  · have hlt2 : dtLt ⟨yv, mv.toNat, daysInMonth yv mv.toNat, 23, 59, 59, 0⟩
        now = false := by simpa using hlt
    have hec : expirationCheck now y m = .ok () := by
      unfold expirationCheck
      simp only [hexp]
      rw [if_neg (by simp [hlt2])]
    simp only [creditValidate, hluhn, hec]
    constructor
    · intro hres
      exfalso
      by_cases hb : cvvMatch c = true
      · have hc2 : cvvCheck c = .ok () := by
          unfold cvvCheck
          rw [if_pos hb]
        simp only [hc2] at hres
        unfold typeCheck at hres
        cases hct : cardType (stripNonDigits n).data with
        | none =>
          simp only [hct] at hres
          injection hres with h1
          injection h1 with h2
          exact absurd h2 (by decide)
        | some t =>
          simp only [hct] at hres
          cases hres
      · have hc2 : cvvCheck c =
            .error (.invalid "Credit card CVV is invalid format.") := by
          unfold cvvCheck
          rw [if_neg hb]
        simp only [hc2] at hres
        injection hres with h1
        injection h1 with h2
        exact absurd h2 (by decide)
    · intro hco
      rw [hlt2] at hco
      cases hco

/-! ## Claim C6 -/

theorem validateAba_error_msg (r : String) (e : PyErr)
    (he : validateAba r = .error e) :
    e = PyErr.invalid "Bank routing number is not valid." := by
  unfold validateAba at he
  cases hd : digitsOf? r with
  | none =>
    simp only [hd] at he
    injection he with h
    exact h.symm
  | some num =>
    simp only [hd] at he
    split_ifs at he with hA hB
    · injection he with h
      exact h.symm
    · injection he with h
      exact h.symm

/-- Claim C6: the bank-account rules run in the fixed source order --
first_name, last_name, company when the customer is a business, bank_name,
routing_number presence, account_number presence, customer_type presence and
membership, account_type presence and membership, routing_number_type
presence and membership, echeck_type presence and membership, the
account-number length bound, and finally the ABA routing check -- and the
first violated rule alone determines the raised error, which names that
rule.  Each conjunct below fixes one rule as the first violated one and
quantifies over every later field, and the last two conjuncts pin the final
stage: once every earlier guard passes the outcome is exactly that of the
ABA check, whose only error is the routing-number message. -/
theorem c6_validation_order
    (first_name last_name company bank_name : Option String)
    (routing_number account_number : String)
    (customer_type account_type routing_number_type echeck_type :
      Option String) :
    (isBlank first_name = true →
      bankValidate first_name last_name company bank_name routing_number
        account_number customer_type account_type routing_number_type
        echeck_type = .error (.invalid "First name on account is required.")) ∧
    (isBlank first_name = false →
      isBlank last_name = true →
      bankValidate first_name last_name company bank_name routing_number
        account_number customer_type account_type routing_number_type
        echeck_type = .error (.invalid "Last name on account is required.")) ∧
    (isBlank first_name = false →
      isBlank last_name = false →
      (customer_type == some "business" && isBlank company) = true →
      bankValidate first_name last_name company bank_name routing_number
        account_number customer_type account_type routing_number_type
        echeck_type = .error (.invalid "Company name is required.")) ∧
    (isBlank first_name = false →
      isBlank last_name = false →
      (customer_type == some "business" && isBlank company) = false →
      isBlank bank_name = true →
      bankValidate first_name last_name company bank_name routing_number
        account_number customer_type account_type routing_number_type
        echeck_type = .error (.invalid "Bank name is required.")) ∧
    (isBlank first_name = false →
      isBlank last_name = false →
      (customer_type == some "business" && isBlank company) = false →
      isBlank bank_name = false →
      (pyStrip (normalizeRouting routing_number)).data.isEmpty = true →
      bankValidate first_name last_name company bank_name routing_number
        account_number customer_type account_type routing_number_type
        echeck_type = .error (.invalid "Routing number is required.")) ∧
    (isBlank first_name = false →
      isBlank last_name = false →
      (customer_type == some "business" && isBlank company) = false →
      isBlank bank_name = false →
      (pyStrip (normalizeRouting routing_number)).data.isEmpty = false →
      (pyStrip (stripNonDigits account_number)).data.isEmpty = true →
      bankValidate first_name last_name company bank_name routing_number
        account_number customer_type account_type routing_number_type
        echeck_type = .error (.invalid "Account number is required.")) ∧
    (isBlank first_name = false →
      isBlank last_name = false →
      (customer_type == some "business" && isBlank company) = false →
      isBlank bank_name = false →
      (pyStrip (normalizeRouting routing_number)).data.isEmpty = false →
      (pyStrip (stripNonDigits account_number)).data.isEmpty = false →
      isBlank customer_type = true →
      bankValidate first_name last_name company bank_name routing_number
        account_number customer_type account_type routing_number_type
        echeck_type = .error (.invalid "Customer type is required.")) ∧
    (isBlank first_name = false →
      isBlank last_name = false →
      (customer_type == some "business" && isBlank company) = false →
      isBlank bank_name = false →
      (pyStrip (normalizeRouting routing_number)).data.isEmpty = false →
      (pyStrip (stripNonDigits account_number)).data.isEmpty = false →
      isBlank customer_type = false →
      optMem customer_type CUSTOMER_TYPES = false →
      bankValidate first_name last_name company bank_name routing_number
        account_number customer_type account_type routing_number_type
        echeck_type = .error (.invalid "Customer type is not valid.")) ∧
    (isBlank first_name = false →
      isBlank last_name = false →
      (customer_type == some "business" && isBlank company) = false →
      isBlank bank_name = false →
      (pyStrip (normalizeRouting routing_number)).data.isEmpty = false →
      (pyStrip (stripNonDigits account_number)).data.isEmpty = false →
      isBlank customer_type = false →
      optMem customer_type CUSTOMER_TYPES = true →
      isBlank account_type = true →
      bankValidate first_name last_name company bank_name routing_number
        account_number customer_type account_type routing_number_type
        echeck_type = .error (.invalid "Bank account type is required.")) ∧
    (isBlank first_name = false →
      isBlank last_name = false →
      (customer_type == some "business" && isBlank company) = false →
      isBlank bank_name = false →
      (pyStrip (normalizeRouting routing_number)).data.isEmpty = false →
      (pyStrip (stripNonDigits account_number)).data.isEmpty = false →
      isBlank customer_type = false →
      optMem customer_type CUSTOMER_TYPES = true →
      isBlank account_type = false →
      optMem account_type ACCOUNT_TYPES = false →
      bankValidate first_name last_name company bank_name routing_number
        account_number customer_type account_type routing_number_type
        echeck_type = .error (.invalid "Bank account type is not valid.")) ∧
    (isBlank first_name = false →
      isBlank last_name = false →
      (customer_type == some "business" && isBlank company) = false →
      isBlank bank_name = false →
      (pyStrip (normalizeRouting routing_number)).data.isEmpty = false →
      (pyStrip (stripNonDigits account_number)).data.isEmpty = false →
      isBlank customer_type = false →
      optMem customer_type CUSTOMER_TYPES = true →
      isBlank account_type = false →
      optMem account_type ACCOUNT_TYPES = true →
      isBlank routing_number_type = true →
      bankValidate first_name last_name company bank_name routing_number
        account_number customer_type account_type routing_number_type
        echeck_type = .error (.invalid "Routing number type is required.")) ∧
    (isBlank first_name = false →
      isBlank last_name = false →
      (customer_type == some "business" && isBlank company) = false →
      isBlank bank_name = false →
      (pyStrip (normalizeRouting routing_number)).data.isEmpty = false →
      (pyStrip (stripNonDigits account_number)).data.isEmpty = false →
      isBlank customer_type = false →
      optMem customer_type CUSTOMER_TYPES = true →
      isBlank account_type = false →
      optMem account_type ACCOUNT_TYPES = true →
      isBlank routing_number_type = false →
      optMem routing_number_type ROUTING_NUMBER_TYPES = false →
      bankValidate first_name last_name company bank_name routing_number
        account_number customer_type account_type routing_number_type
        echeck_type = .error (.invalid "Routing number is not valid.")) ∧
    (isBlank first_name = false →
      isBlank last_name = false →
      (customer_type == some "business" && isBlank company) = false →
      isBlank bank_name = false →
      (pyStrip (normalizeRouting routing_number)).data.isEmpty = false →
      (pyStrip (stripNonDigits account_number)).data.isEmpty = false →
      isBlank customer_type = false →
      optMem customer_type CUSTOMER_TYPES = true →
      isBlank account_type = false →
      optMem account_type ACCOUNT_TYPES = true →
      isBlank routing_number_type = false →
      optMem routing_number_type ROUTING_NUMBER_TYPES = true →
      isBlank echeck_type = true →
      bankValidate first_name last_name company bank_name routing_number
        account_number customer_type account_type routing_number_type
        echeck_type = .error (.invalid "eCheck type is required.")) ∧
    (isBlank first_name = false →
      isBlank last_name = false →
      (customer_type == some "business" && isBlank company) = false →
      isBlank bank_name = false →
      (pyStrip (normalizeRouting routing_number)).data.isEmpty = false →
      (pyStrip (stripNonDigits account_number)).data.isEmpty = false →
      isBlank customer_type = false →
      optMem customer_type CUSTOMER_TYPES = true →
      isBlank account_type = false →
      optMem account_type ACCOUNT_TYPES = true →
      isBlank routing_number_type = false →
      optMem routing_number_type ROUTING_NUMBER_TYPES = true →
      isBlank echeck_type = false →
      optMem echeck_type ECHECK_TYPES = false →
      bankValidate first_name last_name company bank_name routing_number
        account_number customer_type account_type routing_number_type
        echeck_type = .error (.invalid "eCheck type is not valid.")) ∧
    (isBlank first_name = false →
      isBlank last_name = false →
      (customer_type == some "business" && isBlank company) = false →
      isBlank bank_name = false →
      (pyStrip (normalizeRouting routing_number)).data.isEmpty = false →
      (pyStrip (stripNonDigits account_number)).data.isEmpty = false →
      isBlank customer_type = false →
      optMem customer_type CUSTOMER_TYPES = true →
      isBlank account_type = false →
      optMem account_type ACCOUNT_TYPES = true →
      isBlank routing_number_type = false →
      optMem routing_number_type ROUTING_NUMBER_TYPES = true →
      isBlank echeck_type = false →
      optMem echeck_type ECHECK_TYPES = true →
      (decide (5 ≤ (stripNonDigits account_number).data.length) &&
        decide ((stripNonDigits account_number).data.length ≤ 17)) = false →
      bankValidate first_name last_name company bank_name routing_number
        account_number customer_type account_type routing_number_type
        echeck_type = .error (.invalid "Bank account number is not valid.")) ∧
    (isBlank first_name = false →
      isBlank last_name = false →
      (customer_type == some "business" && isBlank company) = false →
      isBlank bank_name = false →
      (pyStrip (normalizeRouting routing_number)).data.isEmpty = false →
      (pyStrip (stripNonDigits account_number)).data.isEmpty = false →
      isBlank customer_type = false →
      optMem customer_type CUSTOMER_TYPES = true →
      isBlank account_type = false →
      optMem account_type ACCOUNT_TYPES = true →
      isBlank routing_number_type = false →
      optMem routing_number_type ROUTING_NUMBER_TYPES = true →
      isBlank echeck_type = false →
      optMem echeck_type ECHECK_TYPES = true →
      (decide (5 ≤ (stripNonDigits account_number).data.length) &&
        decide ((stripNonDigits account_number).data.length ≤ 17)) = true →
      bankValidate first_name last_name company bank_name routing_number
        account_number customer_type account_type routing_number_type
        echeck_type = validateAba (normalizeRouting routing_number)) ∧
    (∀ e, validateAba (normalizeRouting routing_number) = Except.error e →
      e = PyErr.invalid "Bank routing number is not valid.") := by
  refine ⟨?_, ?_, ?_, ?_, ?_, ?_, ?_, ?_, ?_, ?_, ?_, ?_, ?_, ?_, ?_, ?_, ?_⟩
  · intro hv
    unfold bankValidate
    simp [hv]
  · intro h1 hv
    unfold bankValidate
    simp [h1, hv]
  · intro h1 h2 hv
    unfold bankValidate
    simp [h1, h2, hv]
  · intro h1 h2 h3 hv
    unfold bankValidate
    simp [h1, h2, h3, hv]
  · intro h1 h2 h3 h4 hv
    unfold bankValidate
    simp [h1, h2, h3, h4, hv]
  · intro h1 h2 h3 h4 h5 hv
    unfold bankValidate
    simp [h1, h2, h3, h4, h5, hv]
  · intro h1 h2 h3 h4 h5 h6 hv
    unfold bankValidate
    simp [h1, h2, h3, h4, h5, h6, hv]
  · intro h1 h2 h3 h4 h5 h6 h7 hv
    unfold bankValidate
    simp [h1, h2, h3, h4, h5, h6, h7, hv]
  · intro h1 h2 h3 h4 h5 h6 h7 h8 hv
    unfold bankValidate
    simp [h1, h2, h3, h4, h5, h6, h7, h8, hv]
  · intro h1 h2 h3 h4 h5 h6 h7 h8 h9 hv
    unfold bankValidate
    simp [h1, h2, h3, h4, h5, h6, h7, h8, h9, hv]
  · intro h1 h2 h3 h4 h5 h6 h7 h8 h9 h10 hv
    unfold bankValidate
    simp [h1, h2, h3, h4, h5, h6, h7, h8, h9, h10, hv]
  · intro h1 h2 h3 h4 h5 h6 h7 h8 h9 h10 h11 hv
    unfold bankValidate
    simp [h1, h2, h3, h4, h5, h6, h7, h8, h9, h10, h11, hv]
  · intro h1 h2 h3 h4 h5 h6 h7 h8 h9 h10 h11 h12 hv
    unfold bankValidate
    simp [h1, h2, h3, h4, h5, h6, h7, h8, h9, h10, h11, h12, hv]
  · intro h1 h2 h3 h4 h5 h6 h7 h8 h9 h10 h11 h12 h13 hv
    unfold bankValidate
    simp [h1, h2, h3, h4, h5, h6, h7, h8, h9, h10, h11, h12, h13, hv]
  · intro h1 h2 h3 h4 h5 h6 h7 h8 h9 h10 h11 h12 h13 h14 hv
    have hv2 : ¬ (5 ≤ (stripNonDigits account_number).data.length ∧
        (stripNonDigits account_number).data.length ≤ 17) := by
      intro hcon
      have ht : (decide (5 ≤ (stripNonDigits account_number).data.length) &&
          decide ((stripNonDigits account_number).data.length ≤ 17)) = true := by
        simp only [Bool.and_eq_true, decide_eq_true_eq]
        exact hcon
      rw [hv] at ht
      cases ht
    unfold bankValidate
    simp [h1, h2, h3, h4, h5, h6, h7, h8, h9, h10, h11, h12, h13, h14]
    intro ha hb
    exact absurd ⟨ha, hb⟩ hv2
  · intro h1 h2 h3 h4 h5 h6 h7 h8 h9 h10 h11 h12 h13 h14 h15
    have h15a : 5 ≤ (stripNonDigits account_number).data.length ∧
        (stripNonDigits account_number).data.length ≤ 17 := by simpa using h15
    have h15b : 5 ≤ (stripNonDigits account_number).length ∧
        (stripNonDigits account_number).length ≤ 17 := h15a
    unfold bankValidate
    simp [h1, h2, h3, h4, h5, h6, h7, h8, h9, h10, h11, h12, h13, h14]
    intro hcon
    exfalso
    rcases hcon with h | h
    · exact absurd h (by omega)
    · exact absurd h (by omega)
  · exact fun e he => validateAba_error_msg (normalizeRouting routing_number) e he

/-- Claim C6, witness: once the two name rules pass, a blank bank name is
reported with the bank-name error over thoroughly invalid later fields
(unparseable routing number, empty account number, invalid customer type,
account type and routing number type, missing eCheck type). -/
theorem c6_witness :
    bankValidate (some "Enoon") (some "Erehwon") (some "") none "bogus" ""
      (some "X") (some "nonsense") (some "WRONG") none =
      Except.error (PyErr.invalid "Bank name is required.") :=
  (c6_validation_order (some "Enoon") (some "Erehwon") (some "") none "bogus"
    "" (some "X") (some "nonsense") (some "WRONG") none).2.2.2.1 rfl rfl rfl
    rfl

/-! ## Claim C7 -/

/-- Claim C7: for every bank-account input passing the presence and
enumeration rules (the ten leading guards of the source), construction
succeeds only if the digits-only normalized account number has length
between 5 and 17 inclusive, and a length outside that range yields the
error `Bank account number is not valid.`. -/
theorem c7_account_length
    (first_name last_name company bank_name : Option String)
    (routing_number account_number : String)
    (customer_type account_type routing_number_type echeck_type : Option String)
    (h1 : isBlank first_name = false)
    (h2 : isBlank last_name = false)
    (h3 : (customer_type == some "business" && isBlank company) = false)
    (h4 : isBlank bank_name = false)
    (h5 : (pyStrip (normalizeRouting routing_number)).data.isEmpty = false)
    (h6 : (pyStrip (stripNonDigits account_number)).data.isEmpty = false)
    (h7 : isBlank customer_type = false)
    (h8 : optMem customer_type CUSTOMER_TYPES = true)
    (h9 : isBlank account_type = false)
    (h10 : optMem account_type ACCOUNT_TYPES = true)
    (h11 : isBlank routing_number_type = false)
    (h12 : optMem routing_number_type ROUTING_NUMBER_TYPES = true)
    (h13 : isBlank echeck_type = false)
    (h14 : optMem echeck_type ECHECK_TYPES = true) :
    (¬ (5 ≤ (stripNonDigits account_number).data.length ∧
        (stripNonDigits account_number).data.length ≤ 17) →
      bankValidate first_name last_name company bank_name routing_number
        account_number customer_type account_type routing_number_type
        echeck_type = .error (.invalid "Bank account number is not valid.")) ∧
    (bankValidate first_name last_name company bank_name routing_number
        account_number customer_type account_type routing_number_type
        echeck_type = .ok () →
      5 ≤ (stripNonDigits account_number).data.length ∧
        (stripNonDigits account_number).data.length ≤ 17) := by
  cases hG : (decide (5 ≤ (stripNonDigits account_number).data.length) &&
      decide ((stripNonDigits account_number).data.length ≤ 17)) with
  | false =>
    have hval : bankValidate first_name last_name company bank_name
        routing_number account_number customer_type account_type
        routing_number_type echeck_type =
        .error (.invalid "Bank account number is not valid.") := by
      unfold bankValidate
      simp only [h1, h2, h3, h4, h5, h6, h7, h8, h9, h10, h11, h12, h13, h14,
        hG, Bool.not_false, Bool.false_eq_true, if_false, Bool.not_true,
        if_true]
    refine ⟨fun _ => hval, fun hok => ?_⟩
    rw [hval] at hok
    cases hok
  | true =>
    refine ⟨fun hno => absurd (by simpa using hG) hno, fun _ => by simpa using hG⟩

/-- Claim C7, witness: with every earlier rule passing, a four-digit account
number is rejected with the account-number error. -/
theorem c7_witness :
    bankValidate (some "Enoon") (some "Erehwon") (some "")
      (some "Knab Bank, NLC") "211073473" "1234" (some "individual")
      (some "checking") (some "ABA") (some "WEB") =
      Except.error (PyErr.invalid "Bank account number is not valid.") :=
  (c7_account_length (some "Enoon") (some "Erehwon") (some "")
    (some "Knab Bank, NLC") "211073473" "1234" (some "individual")
    (some "checking") (some "ABA") (some "WEB") rfl rfl rfl rfl rfl rfl rfl
    rfl rfl rfl rfl rfl rfl rfl).1 (by decide)

/-! ## Claim C9 -/

/-- Claim C9: two bank-account inputs identical in every field except
`routing_number_type`, with both values drawn from {ABA, IBAN, SWIFT},
produce the same construction outcome; the nine-digit ABA
length-and-checksum validation runs unconditionally whichever type is
selected. -/
theorem c9_routing_type_independent
    (first_name last_name company bank_name : Option String)
    (routing_number account_number : String)
    (customer_type account_type echeck_type : Option String)
    (t1 t2 : String)
    (ht1 : t1 ∈ ROUTING_NUMBER_TYPES) (ht2 : t2 ∈ ROUTING_NUMBER_TYPES) :
    bankValidate first_name last_name company bank_name routing_number
      account_number customer_type account_type (some t1) echeck_type =
    bankValidate first_name last_name company bank_name routing_number
      account_number customer_type account_type (some t2) echeck_type := by
  have g : ∀ t, t ∈ ROUTING_NUMBER_TYPES →
      isBlank (some t) = false ∧ optMem (some t) ROUTING_NUMBER_TYPES = true := by
    intro t ht
    simp only [ROUTING_NUMBER_TYPES, List.mem_cons, List.mem_singleton,
      List.not_mem_nil, or_false] at ht
    rcases ht with rfl | rfl | rfl <;> exact ⟨rfl, rfl⟩
  obtain ⟨a1, b1⟩ := g t1 ht1
  obtain ⟨a2, b2⟩ := g t2 ht2
  unfold bankValidate
  simp [a1, b1, a2, b2]

/-- Claim C9, witness: the outcome with type ABA equals the outcome with
type IBAN on an otherwise fixed input. -/
theorem c9_witness :
    bankValidate (some "Enoon") (some "Erehwon") (some "")
      (some "Knab Bank, NLC") "211073473" "12341234123" (some "individual")
      (some "checking") (some "ABA") (some "WEB") =
    bankValidate (some "Enoon") (some "Erehwon") (some "")
      (some "Knab Bank, NLC") "211073473" "12341234123" (some "individual")
      (some "checking") (some "IBAN") (some "WEB") :=
  c9_routing_type_independent (some "Enoon") (some "Erehwon") (some "")
    (some "Knab Bank, NLC") "211073473" "12341234123" (some "individual")
    (some "checking") (some "WEB") "ABA" "IBAN" (by decide) (by decide)

/-! ## Claim C10 -/

/-- Claim C10: when `exp_year` or `exp_month` is not coercible to an
integer, or the month is outside 1..12, a card passing the Luhn check makes
the construction raise an uncaught exception, never the invalid-input
validation error: the expiration computation is partial and such inputs
escape the single-error-kind taxonomy. -/
theorem c10_uncoercible_escapes (now : DateTime) (n y m c : String)
    (hluhn : numberCheck (stripNonDigits n) = .ok ())
    (hbad : pyInt? y = none ∨ pyInt? m = none ∨
      ∃ mv, pyInt? m = some mv ∧ (mv < 1 ∨ 12 < mv)) :
    creditValidate now n y m c = .error (.exc "ValueError") ∧
    ∀ msg, creditValidate now n y m c ≠ .error (.invalid msg) := by
  have hexp : expiration? y m = none := by
    unfold expiration?
    rcases hbad with h | h | ⟨mv, hmv, hout⟩
    · rw [h]
    · cases hy2 : pyInt? y with
      | none => rfl
      | some yv =>
        rw [h]
    · cases hy2 : pyInt? y with
      | none => rfl
      | some yv =>
        rw [hmv]
        show (if 1 ≤ mv ∧ mv ≤ 12 ∧ 1 ≤ yv ∧ yv ≤ 9999 then _ else none) =
          (none : Option DateTime)
        rw [if_neg (by rintro ⟨a, b, _⟩; rcases hout with hh | hh <;> omega)]
  have hec : expirationCheck now y m = .error (.exc "ValueError") := by
    unfold expirationCheck
    rw [hexp]
  have h1 : creditValidate now n y m c = .error (.exc "ValueError") := by
    simp only [creditValidate, hluhn, hec]
  refine ⟨h1, fun msg hcon => ?_⟩
  rw [h1] at hcon
  injection hcon with h2
  cases h2

/-- Claim C10, witness: the default `None` for year and month (the string
`None` after coercion) with a Luhn-valid number raises the uncaught
exception, not the validation error. -/
theorem c10_witness :
    creditValidate sampleNow "4111111111111111" "None" "None" "911" =
      Except.error (PyErr.exc "ValueError") :=
  (c10_uncoercible_escapes sampleNow "4111111111111111" "None" "None" "911"
    rfl (Or.inl rfl)).1

/-- Claim C5, witness for the amended theorem: a card expiring February 2034
has expiration 2034-02-28 23:59:59, and seen from the sample clock in June
2024 the construction does not fail with the expired error. -/
theorem c5_witness :
    expiration? "2034" "2" = some ⟨2034, 2, 28, 23, 59, 59, 0⟩ ∧
    (creditValidate sampleNow "4111111111111111" "2034" "2" "911" =
      Except.error (PyErr.invalid "Credit card is expired.") ↔
      dtLt ⟨2034, 2, 28, 23, 59, 59, 0⟩ sampleNow = true) :=
  c5_amended sampleNow "4111111111111111" "2034" "2" "911" 2034 2 rfl rfl
    (by decide) (by decide) (by decide) (by decide) rfl

/-! ## Claim C8 -/

theorem getD_replicate_of_lt (n i : Nat) (a d : Char) (h : i < n) :
    (List.replicate n a).getD i d = a := by
  induction n generalizing i with
  | zero => omega
  | succ k ih =>
    cases i with
    | zero => simp [List.replicate]
    | succ j =>
      simp only [List.replicate, List.getD_cons_succ]
      exact ih j (Nat.lt_of_succ_lt_succ h)

theorem safe_number_masked (s : String) (h : 4 ≤ s.data.length) :
    maskedOk s := by
  refine ⟨?_, ?_, ?_⟩
  · show (List.replicate (s.data.length - 4) '*' ++
      s.data.drop (s.data.length - 4)).length = s.data.length
    rw [List.length_append, List.length_replicate, List.length_drop]
    omega
  · show (List.replicate (s.data.length - 4) '*' ++
      s.data.drop (s.data.length - 4)).drop (s.data.length - 4) =
      s.data.drop (s.data.length - 4)
    have hdl := List.drop_left (List.replicate (s.data.length - 4) '*')
      (s.data.drop (s.data.length - 4))
    rwa [List.length_replicate] at hdl
  · intro i hi
    show (List.replicate (s.data.length - 4) '*' ++
      s.data.drop (s.data.length - 4)).getD i '?' = '*'
    rw [List.getD_append _ _ _ _ (by rw [List.length_replicate]; exact hi)]
    exact getD_replicate_of_lt _ _ _ _ hi

theorem cardType_some_len (s : List Char) (t : String)
    (h : cardType s = some t) : 4 ≤ s.length := by
  unfold cardType at h
  split_ifs at h with h1 h2 h3 h4 h5
  · unfold visaMatch at h1
    simp only [Bool.and_eq_true, Bool.or_eq_true, decide_eq_true_eq] at h1
    rcases h1.2 with hL | hL <;> omega
  · unfold amexMatch at h2
    simp only [Bool.and_eq_true, decide_eq_true_eq] at h2
    omega
  · unfold mcMatch at h3
    simp only [Bool.and_eq_true, decide_eq_true_eq] at h3
    omega
  · unfold discoverMatch at h4
    simp only [Bool.and_eq_true, decide_eq_true_eq] at h4
    omega
  · unfold dinersMatch at h5
    simp only [Bool.and_eq_true, Bool.or_eq_true, decide_eq_true_eq] at h5
    rcases h5 with h | h <;> omega

theorem creditValidate_ok_typeCheck (now : DateTime) (n y m c : String)
    (h : creditValidate now n y m c = .ok ()) :
    typeCheck (stripNonDigits n) = .ok () := by
  unfold creditValidate at h
  cases hnc : numberCheck (stripNonDigits n) with
  | error e =>
    simp only [hnc] at h
    exact Except.noConfusion h
  | ok u =>
    simp only [hnc] at h
    cases hev : expirationCheck now y m with
    | error e =>
      simp only [hev] at h
      exact Except.noConfusion h
    | ok v =>
      simp only [hev] at h
      cases hcv : cvvCheck c with
      | error e =>
        simp only [hcv] at h
        exact Except.noConfusion h
      | ok w => simpa only [hcv] using h

theorem bankValidate_ok_len
    (first_name last_name company bank_name : Option String)
    (routing_number account_number : String)
    (customer_type account_type routing_number_type echeck_type : Option String)
    (h : bankValidate first_name last_name company bank_name routing_number
      account_number customer_type account_type routing_number_type
      echeck_type = .ok ()) :
    5 ≤ (stripNonDigits account_number).data.length ∧
      (stripNonDigits account_number).data.length ≤ 17 := by
  simp only [bankValidate] at h
  by_cases g1 : isBlank first_name = true
  · rw [if_pos g1] at h
    exact Except.noConfusion h
  rw [if_neg g1] at h
  by_cases g2 : isBlank last_name = true
  · rw [if_pos g2] at h
    exact Except.noConfusion h
  rw [if_neg g2] at h
  by_cases g3 : (customer_type == some "business" && isBlank company) = true
  · rw [if_pos g3] at h
    exact Except.noConfusion h
  rw [if_neg g3] at h
  by_cases g4 : isBlank bank_name = true
  · rw [if_pos g4] at h
    exact Except.noConfusion h
  rw [if_neg g4] at h
  by_cases g5 : (pyStrip (normalizeRouting routing_number)).data.isEmpty = true
  · rw [if_pos g5] at h
    exact Except.noConfusion h
  rw [if_neg g5] at h
  by_cases g6 : (pyStrip (stripNonDigits account_number)).data.isEmpty = true
  · rw [if_pos g6] at h
    exact Except.noConfusion h
  rw [if_neg g6] at h
  by_cases g7 : isBlank customer_type = true
  · rw [if_pos g7] at h
    exact Except.noConfusion h
  rw [if_neg g7] at h
  by_cases g8 : (!optMem customer_type CUSTOMER_TYPES) = true
  · rw [if_pos g8] at h
    exact Except.noConfusion h
  rw [if_neg g8] at h
  by_cases g9 : isBlank account_type = true
  · rw [if_pos g9] at h
    exact Except.noConfusion h
  rw [if_neg g9] at h
  by_cases g10 : (!optMem account_type ACCOUNT_TYPES) = true
  · rw [if_pos g10] at h
    exact Except.noConfusion h
  rw [if_neg g10] at h
  by_cases g11 : isBlank routing_number_type = true
  · rw [if_pos g11] at h
    exact Except.noConfusion h
  rw [if_neg g11] at h
  by_cases g12 : (!optMem routing_number_type ROUTING_NUMBER_TYPES) = true
  · rw [if_pos g12] at h
    exact Except.noConfusion h
  rw [if_neg g12] at h
  by_cases g13 : isBlank echeck_type = true
  · rw [if_pos g13] at h
    exact Except.noConfusion h
  rw [if_neg g13] at h
  by_cases g14 : (!optMem echeck_type ECHECK_TYPES) = true
  · rw [if_pos g14] at h
    exact Except.noConfusion h
  rw [if_neg g14] at h
  by_cases g15 : (!(decide (5 ≤ (stripNonDigits account_number).data.length) &&
      decide ((stripNonDigits account_number).data.length ≤ 17))) = true
  · rw [if_pos g15] at h
    exact Except.noConfusion h
  have g : (decide (5 ≤ (stripNonDigits account_number).data.length) &&
      decide ((stripNonDigits account_number).data.length ≤ 17)) = true := by
    revert g15
    cases (decide (5 ≤ (stripNonDigits account_number).data.length) &&
      decide ((stripNonDigits account_number).data.length ≤ 17)) <;> simp
  simp only [Bool.and_eq_true, decide_eq_true_eq] at g
  exact g

/-- Claim C8: for every successfully constructed credit card or bank
account, `safe_number` keeps the length of the normalized number, its last
four characters are the last four digits of that number, and every earlier
character is a star; and the card number 4111111111111111 masks to
`************1111`. -/
theorem c8_masking :
    (∀ now n y m c, creditValidate now n y m c = .ok () →
      maskedOk (stripNonDigits n)) ∧
    (∀ first_name last_name company bank_name routing_number account_number
        customer_type account_type routing_number_type echeck_type,
      bankValidate first_name last_name company bank_name routing_number
        account_number customer_type account_type routing_number_type
        echeck_type = .ok () → maskedOk (stripNonDigits account_number)) ∧
    safe_number (stripNonDigits "4111111111111111") = "************1111" := by
  refine ⟨?_, ?_, rfl⟩
  · intro now n y m c h
    have ht := creditValidate_ok_typeCheck now n y m c h
    unfold typeCheck at ht
    cases hct : cardType (stripNonDigits n).data with
    | none =>
      simp only [hct] at ht
      exact Except.noConfusion ht
    | some t =>
      exact safe_number_masked _ (cardType_some_len _ t hct)
  · intro fn ln co bn rn an ct aty rnt ety h
    have hlen := bankValidate_ok_len fn ln co bn rn an ct aty rnt ety h
    exact safe_number_masked _ (by omega)

/-- Claim C8, witness: a constructed visa card with separators in the raw
number satisfies the masking properties. -/
theorem c8_witness :
    maskedOk (stripNonDigits "4111-1111-1111-1111") :=
  c8_masking.1 sampleNow "4111-1111-1111-1111" "2034" "1" "911" rfl
